import Mathlib

/-!
Shallow embedding of apps/remix-ide/src/blockchain/blockchain.js: the
transaction submission and orchestration layer (the Blockchain class).
JS field truthiness is modelled by collapsing absent and falsy values:
an absent or empty string field is `""`, an absent or zero amount is `0`.
External collaborators that the file only calls (txRunner.rawRun,
txExecution.checkVMError, resultToRemixTx) are abstracted by parameters
or, where the spec pins their behaviour down, modelled from the spec.
-/

namespace Remix

/-- The injected transactionContextAPI: each field is `some v` when the
context exposes the accessor and calling it returns `v`, and `none` when
the accessor is absent. -/
structure TxContextAPI where
  getGasLimit : Option Nat
  getValue : Option Nat
  getAddress : Option String
  deriving DecidableEq

/-- A detected network, as delivered by executionContext.detectNetwork. -/
structure Network where
  id : String
  name : String
  deriving DecidableEq

/-- The inner `result.result` object of a raw execution result.
`execResult` is `some v` when the raw result has an execResult object
whose returnValue is `v`. -/
structure RawInner where
  createdAddress : Option String
  contractAddress : Option String
  status : Option String
  execResult : Option String
  deriving DecidableEq

/-- A raw result delivered by txRunner.rawRun to the result callback.
`revertSignal` is the execution-level failure signal, with its
backend-supplied message, that txExecution.checkVMError inspects on
simulated-backend results. -/
structure RawResult where
  result : Option RawInner
  revertSignal : Option String
  deriving DecidableEq

/-- Modelled from the spec: txExecution.checkVMError comes from remix-lib
and is not under src/.  Per the spec, for the Simulated backend a raw
result that signals an execution-level failure yields an error carrying
the backend-supplied message; otherwise no error. -/
def checkVMError (r : RawResult) : Option String := r.revertSignal

/-- The resolved sender: an address, or the sentinel `0` that the
resolver substitutes when account resolution throws (`from = 0` in the
source, line 483). -/
inductive Sender where
  | addr (a : String)
  | sentinel
  deriving DecidableEq

/-- The `data` argument of runTx (`args.data`): only the fields the
pipeline itself reads are modelled; the payload-only fields (funAbi,
funArgs, contractBytecode, contractName, contractABI, linkReferences)
feed the elided payLoad object. -/
structure ArgsData where
  dataHex : String
  timestamp : Option Nat
  deriving DecidableEq

/-- The `args` argument of runTx.  `to = ""` models an absent
destination (contract creation), `from = ""` an absent or falsy explicit
sender, and `value = 0` an absent or falsy explicit value, matching the
JS truthiness tests on those fields. -/
structure RunTxArgs where
  «to» : String
  data : ArgsData
  useCall : Bool
  «from» : String
  value : Nat
  deriving DecidableEq

/-- The normalized transaction record handed to txRunner.rawRun
(source line 487). -/
structure Tx where
  «to» : String
  data : String
  useCall : Bool
  «from» : Sender
  value : Nat
  gasLimit : Nat
  timestamp : Option Nat
  deriving DecidableEq

/-- The parts of the Blockchain object state and its collaborators that
runTx reads: the injected transaction context, the active-backend kind
(executionContext.isVM), the outcome of querying the active provider
account list (getAccounts), and the simulated backend account set
(providers.vm.RemixSimulatorProvider.Accounts.accounts). -/
structure RunTxEnv where
  transactionContextAPI : TxContextAPI
  isVM : Bool
  getAccountsResult : Except String (List String)
  vmAccounts : List String

/-- Gas-limit resolution of runTx (source lines 451 to 454): the result
of the getGasLimit accessor when the context exposes it, else the fixed
fallback 3000000. -/
def resolveGasLimit (api : TxContextAPI) : Nat :=
  match api.getGasLimit with
  | some g => g
  | none => 3000000

/-- Value resolution of runTx (source lines 455 to 463): a truthy
`args.value` wins; else 0 when `args.useCall` is set or the context has
no getValue accessor; else the accessor result. -/
def resolveValue (args : RunTxArgs) (api : TxContextAPI) : Nat :=
  if args.value ≠ 0 then args.value
  else if args.useCall || api.getValue.isNone then 0
  else api.getValue.getD 0

/-- Sender resolution of runTx (source lines 465 to 485): a truthy
explicit `args.from` first, then the context getAddress accessor, else
the first account of the active provider account list.  The two throws
(`No accounts available` for a falsy first account, `Invalid account
selected` for a VM account outside the known set) and a rejected
account-list query are all caught by the surrounding try/catch, which
substitutes the sentinel `from = 0`.  The second component records
whether the account-list query (getAccounts) was performed. -/
def resolveFrom (args : RunTxArgs) (env : RunTxEnv) : Sender × Bool :=
  if args.«from» ≠ "" then (Sender.addr args.«from», false)
  else
    match env.transactionContextAPI.getAddress with
    | some a => (Sender.addr a, false)
    | none =>
      match env.getAccountsResult with
      | Except.error _ => (Sender.sentinel, true)
      | Except.ok accounts =>
        match accounts.head? with
        | none => (Sender.sentinel, true)
        | some address =>
          if address = "" then (Sender.sentinel, true)
          else if env.isVM && !(env.vmAccounts.contains address) then (Sender.sentinel, true)
          else (Sender.addr address, true)

/-- Notifications emitted through self.event.trigger during runTx; the
timestamp and payload arguments of the events are elided. -/
inductive TxEvent where
  | initiatingTransaction
  | callExecuted
  | transactionExecuted
  deriving DecidableEq

/-- The returnValue passed to the runTx callback (source line 520): the
inline execResult.returnValue on the simulated backend, else the whole
`txResult.result`. -/
inductive ReturnValue where
  | execReturn (v : String)
  | wholeResult (r : RawInner)
  deriving DecidableEq

/-- What runTx delivers to its callback `cb`: either `cb(error)` or
`cb(null, txResult, address, returnValue)`.  `thrown` records that the
result callback threw at the unguarded dereference of `result.result`
on source line 498, so `cb` was never invoked. -/
inductive CbOutcome where
  | err (e : String)
  | ok (txResult : RawResult) (address : Option String) (returnValue : ReturnValue)
  | thrown
  deriving DecidableEq

/-- Success branch of the runTx result callback (source lines 515 to
523), reached only after line 498 has dereferenced `txResult.result`
successfully, so the line-517 guard holds: address and return-value
extraction from the inner result. -/
def okOutcome (isVM : Bool) (txResult : RawResult) (inner : RawInner) : CbOutcome :=
  let address := if isVM then inner.createdAddress else inner.contractAddress
  let returnValue :=
    match inner.execResult, isVM with
    | some v, true => ReturnValue.execReturn v
    | _, _ => ReturnValue.wholeResult inner
  CbOutcome.ok txResult address returnValue

/-- The result callback runTx hands to txRunner.rawRun (source lines 494
to 525), on the `(error, result)` pair the runner delivers.  Returns the
notifications it emits together with the outcome delivered to `cb`.  A
success result whose `result.result` is absent throws at the unguarded
dereference on line 498, before the executed trigger on line 500, before
the revert check and before `cb`: no notification is emitted and `cb`
never runs.  Otherwise the executed notification fires before the
simulated-backend revert check, and only the simulated backend runs
checkVMError. -/
def handleRawRunResult (isVM useCall : Bool) (outcome : Except String RawResult) :
    List TxEvent × CbOutcome :=
  match outcome with
  | Except.error e => ([], CbOutcome.err e)
  | Except.ok result =>
    match result.result with
    | none => ([], CbOutcome.thrown)
    | some inner =>
      let eventName := if useCall then TxEvent.callExecuted else TxEvent.transactionExecuted
      if isVM then
        match checkVMError result with
        | some msg => ([eventName], CbOutcome.err msg)
        | none => ([eventName], okOutcome isVM result inner)
      else ([eventName], okOutcome isVM result inner)

/-- Everything observable from one runTx invocation: the emitted
notifications in order, the callback outcome, whether rawRun was
invoked, whether the account-list query was performed, and the
normalized record handed to rawRun. -/
structure RunTxResult where
  events : List TxEvent
  outcome : CbOutcome
  dispatched : Bool
  accountsQueried : Bool
  tx : Tx

/-- runTx (source lines 446 to 526), with txRunner.rawRun abstracted as
`dispatch`: a map from the normalized record to the `(error, result)`
outcome the runner delivers to the result callback.  Per the spec,
caller cancellation through the confirmation hooks surfaces as an error
outcome of the runner. -/
def runTx (args : RunTxArgs) (env : RunTxEnv)
    (dispatch : Tx → Except String RawResult) : RunTxResult :=
  let gasLimit := resolveGasLimit env.transactionContextAPI
  let value := resolveValue args env.transactionContextAPI
  let fromq := resolveFrom args env
  let tx : Tx := { «to» := args.to, data := args.data.dataHex, useCall := args.useCall,
                   «from» := fromq.1, value := value, gasLimit := gasLimit,
                   timestamp := args.data.timestamp }
  let handled := handleRawRunResult env.isVM args.useCall (dispatch tx)
  { events := TxEvent.initiatingTransaction :: handled.1
    outcome := handled.2
    dispatched := true
    accountsQueried := fromq.2
    tx := tx }

/-- Status check of createContract (source line 120): the receipt status
field is present (truthy) and equal to the zero-status value `0x0`. -/
def statusIsZero (txResult : RawResult) : Bool :=
  match txResult.result with
  | some inner =>
    match inner.status with
    | some s => s == "0x0"
    | none => false
  | none => false

/-- Outcome delivered to finalCb by createContract: an error string, or
`finalCb(null, selectedContract, address)` with the extracted address
(the contract descriptor argument is elided).  `thrown` records that the
pipeline callback threw before invoking the createContract callback, so
finalCb never runs. -/
inductive FinalOutcome where
  | errMsg (s : String)
  | success (address : Option String)
  | thrown
  deriving DecidableEq

/-- createContract (source lines 108 to 126): runs the pipeline with
`useCall = false` and no destination, maps a pipeline error to a
creation-failed message, classifies a zero-status receipt as a creation
failure even without a raised error, and otherwise delivers the
extracted address.  The mutation of `data` (contractName,
linkReferences, contractABI) only feeds the elided payload. -/
def createContract (name : String) (data : ArgsData) (env : RunTxEnv)
    (dispatch : Tx → Except String RawResult) : FinalOutcome :=
  let r := runTx { «to» := "", data := data, useCall := false, «from» := "", value := 0 } env dispatch
  match r.outcome with
  | CbOutcome.err e => FinalOutcome.errMsg ("creation of " ++ name ++ " errored: " ++ e)
  | CbOutcome.ok txResult address _ =>
    if statusIsZero txResult then
      FinalOutcome.errMsg ("creation of " ++ name ++ " errored: transaction execution failed")
    else FinalOutcome.success address
  | CbOutcome.thrown => FinalOutcome.thrown

/-- Outcome of the promise returned by sendTransaction. -/
inductive SendOutcome (α : Type) where
  | rejected (e : String)
  | resolved (v : α)
  deriving DecidableEq

/-- sendTransaction (source lines 416 to 440).  `detect` is the outcome
of executionContext.detectNetwork; `rawRun` abstracts the whole
txRunner.rawRun interaction as the `(error, result)` outcome delivered
to the result callback (the continue hook also rejects on an estimation
error, folded into the error outcome); `convert` is resultToRemixTx
(from txResultHelper, outside this file), whose exception is caught and
rejected.  The boolean records whether rawRun was invoked. -/
def sendTransaction {α : Type} (detect : Except String Network)
    (rawRun : Except String RawResult) (convert : RawResult → Except String α) :
    SendOutcome α × Bool :=
  match detect with
  | Except.error e => (SendOutcome.rejected e, false)
  | Except.ok network =>
    if network.name = "Main" ∧ network.id = "1" then
      (SendOutcome.rejected "It is not allowed to make this action against mainnet", false)
    else
      match rawRun with
      | Except.error e => (SendOutcome.rejected e, true)
      | Except.ok result =>
        match convert result with
        | Except.error e => (SendOutcome.rejected e, true)
        | Except.ok v => (SendOutcome.resolved v, true)

/-- The provider registry built by setupProviders (source lines 54 to
59): exactly the three providers vm, injected and web3 are registered at
construction. -/
structure Providers (P : Type) where
  vm : P
  injected : P
  web3 : P

/-- Lookup of `this.providers[name]`. -/
def Providers.lookup {P : Type} (ps : Providers P) (name : String) : Option P :=
  if name = "vm" then some ps.vm
  else if name = "injected" then some ps.injected
  else if name = "web3" then some ps.web3
  else none

/-- getCurrentProvider (source lines 61 to 65): the provider registered
under the externally selected active name, else the web3 provider as the
default. -/
def getCurrentProvider {P : Type} (ps : Providers P) (active : String) : P :=
  match ps.lookup active with
  | some p => p
  | none => ps.web3

/-- The newAccount argument of createVMAccount. -/
structure NewAccount where
  privateKey : String
  balance : String
  deriving DecidableEq

/-- createVMAccount (source lines 390 to 395): throws unless the active
provider name is vm, where it delegates to the vm provider
account-creation operation, abstracted as `vmCreate`. -/
def createVMAccount {β : Type} (active : String) (vmCreate : NewAccount → β)
    (newAccount : NewAccount) : Except String β :=
  if active ≠ "vm" then
    Except.error "plugin API does not allow creating a new account through web3 connection. Only vm mode is allowed"
  else Except.ok (vmCreate newAccount)

/-! Concrete sample values used by witnesses and counterexamples. -/

/-- A transaction context exposing every accessor. -/
def ctxFull : TxContextAPI :=
  { getGasLimit := some 4000000, getValue := some 7, getAddress := none }

/-- A transaction context exposing no accessor. -/
def ctxEmpty : TxContextAPI :=
  { getGasLimit := none, getValue := none, getAddress := none }

/-- A sample data argument. -/
def dataSample : ArgsData := { dataHex := "0x60fe47", timestamp := none }

/-- Environment with no accounts available and a non-simulated backend. -/
def envNoAccounts : RunTxEnv :=
  { transactionContextAPI := ctxEmpty, isVM := false,
    getAccountsResult := Except.ok [], vmAccounts := [] }

/-- Environment with a default-value accessor and a non-simulated backend. -/
def envCtxFull : RunTxEnv :=
  { transactionContextAPI := ctxFull, isVM := false,
    getAccountsResult := Except.ok ["0xacc"], vmAccounts := [] }

/-- Environment on the simulated backend. -/
def envVM : RunTxEnv :=
  { transactionContextAPI := ctxEmpty, isVM := true,
    getAccountsResult := Except.ok ["0xacc"], vmAccounts := ["0xacc"] }

/-- Intent with no explicit sender and no explicit value. -/
def argsNoFrom : RunTxArgs :=
  { «to» := "", data := dataSample, useCall := false, «from» := "", value := 0 }

/-- Intent with an explicit sender. -/
def argsWithFrom : RunTxArgs :=
  { «to» := "0xto", data := dataSample, useCall := false, «from» := "0xme", value := 0 }

/-- Call intent carrying a truthy explicit value. -/
def argsCallWithValue : RunTxArgs :=
  { «to» := "0xto", data := dataSample, useCall := true, «from» := "0xme", value := 5 }

/-- Successful inner receipt carrying a contract address. -/
def innerOkReceipt : RawInner :=
  { createdAddress := none, contractAddress := some "0xrcpt",
    status := some "0x1", execResult := none }

/-- Raw result with an inner receipt, carrying an execution-level revert
signal. -/
def rawRevert : RawResult :=
  { result := some innerOkReceipt, revertSignal := some "revert msg" }

/-- Raw receipt with zero status and both address fields present. -/
def innerZeroStatus : RawInner :=
  { createdAddress := some "0xnew", contractAddress := some "0xrcpt",
    status := some "0x0", execResult := none }

/-- Constant dispatch succeeding with an inner receipt. -/
def dispatchOkReceipt : Tx → Except String RawResult :=
  fun _ => Except.ok { result := some innerOkReceipt, revertSignal := none }

/-! Claim theorems. -/

/-- C2: whenever network detection reports the network named Main with id
1, sendTransaction rejects with the mainnet-disallowed error and rawRun
is never invoked (no dispatch is attempted). -/
theorem sendTransaction_mainnet_disallowed {α : Type} (network : Network)
    (rawRun : Except String RawResult) (convert : RawResult → Except String α)
    (hname : network.name = "Main") (hid : network.id = "1") :
    sendTransaction (Except.ok network) rawRun convert =
      (SendOutcome.rejected "It is not allowed to make this action against mainnet", false) := by
  simp [sendTransaction, hname, hid]

/-- Witness for C2 at the network of the scenario. -/
theorem sendTransaction_mainnet_disallowed_check :
    sendTransaction (Except.ok { id := "1", name := "Main" })
        (Except.ok { result := none, revertSignal := none }) (fun _ => Except.ok 0) =
      (SendOutcome.rejected "It is not allowed to make this action against mainnet", false) :=
  sendTransaction_mainnet_disallowed _ _ _ rfl rfl

/-- C7: getCurrentProvider never fails: the registry holds exactly the
three providers vm, injected and web3; a registered active name yields
its provider and any other name falls back to the web3 provider. -/
theorem getCurrentProvider_total_default {P : Type} (ps : Providers P) (active : String) :
    ((ps.lookup active).isSome ↔ (active = "vm" ∨ active = "injected" ∨ active = "web3")) ∧
    (∀ p, ps.lookup active = some p → getCurrentProvider ps active = p) ∧
    (ps.lookup active = none → getCurrentProvider ps active = ps.web3) := by
  unfold getCurrentProvider Providers.lookup
  by_cases h1 : active = "vm"
  · simp [h1]
  · by_cases h2 : active = "injected"
    · simp [h1, h2]
    · by_cases h3 : active = "web3"
      · simp [h1, h2, h3]
      · simp [h1, h2, h3]

/-- Witness for C7: an unregistered active name falls back to web3. -/
theorem getCurrentProvider_total_default_check :
    getCurrentProvider ({ vm := 1, injected := 2, web3 := 3 } : Providers Nat) "plugin" = 3 :=
  (getCurrentProvider_total_default { vm := 1, injected := 2, web3 := 3 } "plugin").2.2 rfl

/-- C10: createVMAccount throws whenever the active provider name is not
vm, and in vm mode delegates to the vm provider account creation. -/
theorem createVMAccount_vm_only {β : Type} (active : String) (vmCreate : NewAccount → β)
    (newAccount : NewAccount) :
    (active ≠ "vm" → createVMAccount active vmCreate newAccount =
      Except.error "plugin API does not allow creating a new account through web3 connection. Only vm mode is allowed") ∧
    (active = "vm" → createVMAccount active vmCreate newAccount =
      Except.ok (vmCreate newAccount)) := by
  constructor
  · intro h; simp [createVMAccount, h]
  · intro h; simp [createVMAccount, h]

/-- Witness for C10 at a non-vm provider name. -/
theorem createVMAccount_vm_only_check :
    createVMAccount "injected" (fun a => a.privateKey) { privateKey := "pk", balance := "1" } =
      Except.error "plugin API does not allow creating a new account through web3 connection. Only vm mode is allowed" :=
  (createVMAccount_vm_only "injected" (fun a => a.privateKey)
    { privateKey := "pk", balance := "1" }).1 (by decide)

/-- C3 fails as stated: with useCall set but a truthy explicit value, the
explicit value wins (source line 457 tests args.value first), so the
resolved value is 5, not 0, even though the context exposes a
default-value accessor. -/
theorem runTx_useCall_value_counterexample :
    argsCallWithValue.useCall = true ∧
    (runTx argsCallWithValue envCtxFull (fun _ => Except.error "e")).tx.value = 5 :=
  ⟨rfl, rfl⟩

/-- C3 (amended): with useCall set and no truthy explicit value, the
resolved value is 0 regardless of the context default-value accessor. -/
theorem runTx_useCall_value_zero (args : RunTxArgs) (env : RunTxEnv)
    (dispatch : Tx → Except String RawResult)
    (hcall : args.useCall = true) (hval : args.value = 0) :
    (runTx args env dispatch).tx.value = 0 := by
  simp [runTx, resolveValue, hcall, hval]

/-- Witness for amended C3 with a context exposing a default value. -/
theorem runTx_useCall_value_zero_check :
    (runTx { «to» := "0xto", data := dataSample, useCall := true, «from» := "0xme", value := 0 }
        envCtxFull (fun _ => Except.error "e")).tx.value = 0 :=
  runTx_useCall_value_zero _ envCtxFull _ rfl rfl

/-- C8: a truthy explicit from is used as the sender verbatim, and the
account-list query (getAccounts) is never performed. -/
theorem runTx_explicit_from (args : RunTxArgs) (env : RunTxEnv)
    (dispatch : Tx → Except String RawResult) (h : args.«from» ≠ "") :
    (runTx args env dispatch).tx.«from» = Sender.addr args.«from» ∧
    (runTx args env dispatch).accountsQueried = false := by
  constructor <;> simp [runTx, resolveFrom, h]

/-- Witness for C8 at an intent with an explicit sender. -/
theorem runTx_explicit_from_check :
    (runTx argsWithFrom envNoAccounts (fun _ => Except.error "e")).tx.«from» =
      Sender.addr "0xme" ∧
    (runTx argsWithFrom envNoAccounts (fun _ => Except.error "e")).accountsQueried = false :=
  runTx_explicit_from argsWithFrom envNoAccounts _ (by decide)

/-- C1 fails as stated: with no explicit sender, no default-address
accessor and an empty account list, the internal throw is caught by the
resolver try/catch (source line 482), the sentinel sender 0 is
substituted, dispatch still happens, and when the dispatch succeeds with
an ordinary receipt the callback receives that success, not a
NoAccountAvailable error. -/
theorem runTx_no_account_counterexample :
    (runTx argsNoFrom envNoAccounts dispatchOkReceipt).tx.«from» = Sender.sentinel ∧
    (runTx argsNoFrom envNoAccounts dispatchOkReceipt).dispatched = true ∧
    (runTx argsNoFrom envNoAccounts dispatchOkReceipt).outcome =
      CbOutcome.ok { result := some innerOkReceipt, revertSignal := none }
        (some "0xrcpt") (ReturnValue.wholeResult innerOkReceipt) :=
  ⟨rfl, rfl, rfl⟩

/-- C1 (amended): with no explicit sender, no default-address accessor
and an empty account list from the provider, the account-list query is
performed and the no-account failure is caught: the sentinel sender 0 is
substituted and the submission proceeds to dispatch. -/
theorem runTx_no_account_sentinel (args : RunTxArgs) (env : RunTxEnv)
    (dispatch : Tx → Except String RawResult)
    (hfrom : args.«from» = "")
    (haddr : env.transactionContextAPI.getAddress = none)
    (hacc : env.getAccountsResult = Except.ok []) :
    (runTx args env dispatch).tx.«from» = Sender.sentinel ∧
    (runTx args env dispatch).accountsQueried = true ∧
    (runTx args env dispatch).dispatched = true := by
  refine ⟨?_, ?_, rfl⟩ <;> simp [runTx, resolveFrom, hfrom, haddr, hacc]

/-- Witness for amended C1 at a failing dispatch. -/
theorem runTx_no_account_sentinel_check :
    (runTx argsNoFrom envNoAccounts (fun _ => Except.error "dispatch failed")).tx.«from» =
      Sender.sentinel ∧
    (runTx argsNoFrom envNoAccounts (fun _ => Except.error "dispatch failed")).accountsQueried = true ∧
    (runTx argsNoFrom envNoAccounts (fun _ => Except.error "dispatch failed")).dispatched = true :=
  runTx_no_account_sentinel argsNoFrom envNoAccounts _ rfl rfl rfl

/-- C9: the initiating notification is emitted first, before any
executed notification of the same submission, and when dispatch reports
an error (which, per the spec, includes caller cancellation through the
confirmation hooks) the executed notification is never emitted. -/
theorem runTx_event_ordering (args : RunTxArgs) (env : RunTxEnv)
    (dispatch : Tx → Except String RawResult) :
    ∃ tail, (runTx args env dispatch).events = TxEvent.initiatingTransaction :: tail ∧
      ∀ e, dispatch (runTx args env dispatch).tx = Except.error e → tail = [] := by
  refine ⟨(handleRawRunResult env.isVM args.useCall
    (dispatch (runTx args env dispatch).tx)).1, rfl, ?_⟩
  intro e he
  rw [he]
  rfl

/-- Witness for C9: a cancelled dispatch leaves only the initiating
notification. -/
theorem runTx_event_ordering_check :
    (runTx argsNoFrom envNoAccounts (fun _ => Except.error "cancelled")).events =
      [TxEvent.initiatingTransaction] := by
  obtain ⟨tail, hev, htail⟩ :=
    runTx_event_ordering argsNoFrom envNoAccounts (fun _ => Except.error "cancelled")
  rw [hev, htail "cancelled" rfl]

/-- C4: on the simulated backend a raw result carrying a revert signal
makes runTx deliver the backend-supplied message as an error to the
caller; on any other backend the revert-signal check is never performed:
the callback receives a success outcome whatever the signal holds.
Stated over results whose `result.result` is present, the only results
the callback survives past line 498 on. -/
theorem runTx_vm_revert_check (args : RunTxArgs) (env : RunTxEnv) (inner : RawInner)
    (sig : Option String) :
    (env.isVM = true → ∀ msg, sig = some msg →
      (runTx args env (fun _ => Except.ok { result := some inner, revertSignal := sig })).outcome =
        CbOutcome.err msg) ∧
    (env.isVM = false →
      ∃ a rv,
        (runTx args env (fun _ => Except.ok { result := some inner, revertSignal := sig })).outcome =
          CbOutcome.ok { result := some inner, revertSignal := sig } a rv) := by
  constructor
  · intro hvm msg hsig
    simp [runTx, handleRawRunResult, hvm, checkVMError, hsig]
  · intro hvm
    cases hex : inner.execResult with
    | none =>
      exact ⟨inner.contractAddress, ReturnValue.wholeResult inner, by
        simp [runTx, handleRawRunResult, hvm, okOutcome, hex]⟩
    | some v =>
      exact ⟨inner.contractAddress, ReturnValue.wholeResult inner, by
        simp [runTx, handleRawRunResult, hvm, okOutcome, hex]⟩

/-- Witness for C4: both instantiated branches at concrete inputs with
an inner receipt present and a revert signal attached. -/
theorem runTx_vm_revert_check_witness :
    (runTx argsNoFrom envVM (fun _ => Except.ok rawRevert)).outcome =
      CbOutcome.err "revert msg" ∧
    (∃ a rv, (runTx argsNoFrom envNoAccounts (fun _ => Except.ok rawRevert)).outcome =
      CbOutcome.ok rawRevert a rv) :=
  ⟨(runTx_vm_revert_check argsNoFrom envVM innerOkReceipt (some "revert msg")).1
      rfl "revert msg" rfl,
   (runTx_vm_revert_check argsNoFrom envNoAccounts innerOkReceipt (some "revert msg")).2 rfl⟩

/-- C5: created-address extraction branches on the backend kind, not on
field presence: the simulated backend reads the createdAddress field and
every other backend reads the contractAddress field, for every raw
result, in particular one carrying both fields. -/
theorem runTx_address_by_backend (args : RunTxArgs) (env : RunTxEnv) (inner : RawInner) :
    ∃ rv, (runTx args env
        (fun _ => Except.ok { result := some inner, revertSignal := none })).outcome =
      CbOutcome.ok { result := some inner, revertSignal := none }
        (if env.isVM then inner.createdAddress else inner.contractAddress) rv := by
  cases hvm : env.isVM with
  | true =>
    cases hex : inner.execResult with
    | none =>
      exact ⟨ReturnValue.wholeResult inner, by
        simp [runTx, handleRawRunResult, checkVMError, hvm, okOutcome, hex]⟩
    | some v =>
      exact ⟨ReturnValue.execReturn v, by
        simp [runTx, handleRawRunResult, checkVMError, hvm, okOutcome, hex]⟩
  | false =>
    cases hex : inner.execResult with
    | none =>
      exact ⟨ReturnValue.wholeResult inner, by
        simp [runTx, handleRawRunResult, checkVMError, hvm, okOutcome, hex]⟩
    | some v =>
      exact ⟨ReturnValue.wholeResult inner, by
        simp [runTx, handleRawRunResult, checkVMError, hvm, okOutcome, hex]⟩

/-- C6: a creation whose transaction completes without a raised error but
whose receipt status is the zero-status value makes createContract
deliver the creation-failed message to finalCb, and no address. -/
theorem createContract_zero_status (name : String) (data : ArgsData) (env : RunTxEnv)
    (r : RawResult) (inner : RawInner)
    (hres : r.result = some inner) (hstat : inner.status = some "0x0")
    (hnorev : r.revertSignal = none) :
    createContract name data env (fun _ => Except.ok r) =
      FinalOutcome.errMsg ("creation of " ++ name ++ " errored: transaction execution failed") := by
  cases hvm : env.isVM with
  | true =>
    cases hex : inner.execResult with
    | none =>
      simp [createContract, runTx, handleRawRunResult, checkVMError, hvm, hnorev,
        okOutcome, statusIsZero, hres, hstat, hex]
    | some v =>
      simp [createContract, runTx, handleRawRunResult, checkVMError, hvm, hnorev,
        okOutcome, statusIsZero, hres, hstat, hex]
  | false =>
    cases hex : inner.execResult with
    | none =>
      simp [createContract, runTx, handleRawRunResult, checkVMError, hvm, hnorev,
        okOutcome, statusIsZero, hres, hstat, hex]
    | some v =>
      simp [createContract, runTx, handleRawRunResult, checkVMError, hvm, hnorev,
        okOutcome, statusIsZero, hres, hstat, hex]

/-- Witness for C6 at the scenario of the spec: simulated backend, a
zero-status receipt carrying both address fields, no raised error. -/
theorem createContract_zero_status_check :
    createContract "Ballot" dataSample envVM
        (fun _ => Except.ok { result := some innerZeroStatus, revertSignal := none }) =
      FinalOutcome.errMsg "creation of Ballot errored: transaction execution failed" :=
  createContract_zero_status "Ballot" dataSample envVM
    { result := some innerZeroStatus, revertSignal := none } innerZeroStatus rfl rfl rfl

end Remix
